import Mathlib

/-!
# Dynamic block-weight controller — shallow embedding

This file embeds the dynamic block-weight controller of
`cumulus/pallets/parachain-system` in Lean 4 and proves properties about it.

The embedded functions are:

* `targetBlockWeightWithDigest` —
  `MaxParachainBlockWeight::target_block_weight_with_digest`
  (`src/block_weight/mod.rs`).
* `targetBlockWeightOld` — the variant in `src/max_parachain_block_weight.rs`
  (no 6s ref-time ceiling, no per-block PoV cap), used by the
  `MaxBlockWeightHooks::pre_inherents` hook of that file.
* `maxWeightGet` — the `Get<Weight>` implementation of
  `MaxParachainBlockWeight` (`src/block_weight/mod.rs`).
* `preValidateExtrinsic` / `postDispatchExtrinsic` —
  `DynamicMaxBlockWeight::{pre_validate_extrinsic, post_dispatch_extrinsic}`
  (`src/block_weight/transaction_extension.rs`).
* `preInherentsHook` — `MaxBlockWeightHooks::pre_inherents`
  (`src/max_parachain_block_weight.rs`).

Host-runtime state touched by these functions (`frame_system` digest,
extrinsic index, inherents-applied flag, per-class consumed block weight) is
collected in the `SysState` structure; static configuration (block-weight
limits, weight-info constants, the generic parameters of the transaction
extension) in `Cfg`.

All machine integers (`u64` weights, `u32` indices, `u16` core counts) are
modelled as `Nat` with explicit saturation at `2^64 - 1` where the source
uses saturating `u64` arithmetic.
-/

/-- Largest `u64` value; Rust saturating arithmetic saturates here. -/
def U64_MAX : Nat := 2 ^ 64 - 1

/-- `u64::saturating_add`. -/
def satAdd64 (a b : Nat) : Nat := min (a + b) U64_MAX

/-- `u64::saturating_mul`. -/
def satMul64 (a b : Nat) : Nat := min (a * b) U64_MAX

/-- Modelled from the spec: `WEIGHT_REF_TIME_PER_SECOND` from
`frame_support::weights::constants` is not part of the sampled sources; its
value is `10^12` picoseconds of reference time per second. -/
def WEIGHT_REF_TIME_PER_SECOND : Nat := 1000000000000

/-- Modelled from the spec: `polkadot_primitives::MAX_POV_SIZE` is not part of
the sampled sources; the module documentation states each core provides "a
storage size of 10MiB", i.e. `10 * 1024 * 1024` bytes. -/
def MAX_POV_SIZE : Nat := 10 * 1024 * 1024

/-- Two-dimensional weight `(ref_time, proof_size)`, both `u64` in the source.
Arithmetic on weights is componentwise and saturating. -/
structure Weight where
  refTime : Nat
  proofSize : Nat
deriving DecidableEq, Repr

/-- `Weight::from_parts(0, 0)`. -/
def Weight.zero : Weight := ⟨0, 0⟩

/-- `Weight::saturating_add`, componentwise. -/
def Weight.satAdd (a b : Weight) : Weight :=
  ⟨satAdd64 a.refTime b.refTime, satAdd64 a.proofSize b.proofSize⟩

/-- `Weight::saturating_sub`, componentwise (`Nat` subtraction truncates at 0,
matching `u64::saturating_sub`). -/
def Weight.satSub (a b : Weight) : Weight :=
  ⟨a.refTime - b.refTime, a.proofSize - b.proofSize⟩

/-- `Weight::any_gt`: true iff some component of `a` exceeds that of `b`. -/
def Weight.anyGt (a b : Weight) : Prop :=
  b.refTime < a.refTime ∨ b.proofSize < a.proofSize

instance (a b : Weight) : Decidable (Weight.anyGt a b) :=
  inferInstanceAs (Decidable (_ ∨ _))

/-- `MAX_REF_TIME_PER_CORE_NS = 2 * WEIGHT_REF_TIME_PER_SECOND`. -/
def MAX_REF_TIME_PER_CORE_NS : Nat := 2 * WEIGHT_REF_TIME_PER_SECOND

/-- `MaxParachainBlockWeight::FULL_CORE_WEIGHT`. -/
def FULL_CORE_WEIGHT : Weight := ⟨MAX_REF_TIME_PER_CORE_NS, MAX_POV_SIZE⟩

/-- `CoreInfo` digest payload. `number_of_cores` is a `Compact<u16>` in the
source, hence bounded by `2^16` in any value the runtime can decode. -/
structure CoreInfo where
  selector : Nat
  claimQueueOffset : Nat
  numberOfCores : Nat
deriving DecidableEq, Repr

/-- One digest item, as far as the controller reads or writes it:
`CumulusDigestItem::CoreInfo`, `CumulusDigestItem::BundleInfo`,
`CumulusDigestItem::UseFullCore`, or anything else (`other`). -/
inductive DigestItem where
  | coreInfo (info : CoreInfo)
  | bundleInfo (index : Nat)
  | useFullCore
  | other (tag : Nat)
deriving DecidableEq, Repr

/-- Modelled from the spec: `CumulusDigestItem::find_core_info` is not part of
the sampled sources; per spec section 4.2 it is a linear scan for the
`CoreInfo` log, returning the first match. -/
def findCoreInfo : List DigestItem → Option CoreInfo
  | [] => none
  | .coreInfo info :: _ => some info
  | _ :: rest => findCoreInfo rest

/-- Modelled from the spec: `CumulusDigestItem::find_bundle_info` is not part
of the sampled sources; per spec section 4.2 it is a linear scan for the
`BundleInfo` log, returning the first match (here, its `index` field). -/
def findBundleInfo : List DigestItem → Option Nat
  | [] => none
  | .bundleInfo index :: _ => some index
  | _ :: rest => findBundleInfo rest

/-- `is_first_block_in_core_with_digest` (`src/block_weight/mod.rs`):
`find_bundle_info(digest).map_or(false, |bi| bi.index == 0)`. -/
def isFirstBlockInCoreWithDigest (digest : List DigestItem) : Prop :=
  match findBundleInfo digest with
  | some index => index = 0
  | none => False

instance (digest : List DigestItem) :
    Decidable (isFirstBlockInCoreWithDigest digest) := by
  unfold isFirstBlockInCoreWithDigest
  cases findBundleInfo digest <;> infer_instance

/-- `DispatchClass` of an extrinsic. -/
inductive DispatchClass where
  | normal
  | operational
  | mandatory
deriving DecidableEq, Repr

/-- The fields of `DispatchInfo` the controller reads: `info.total_weight()`
and `info.class` (named `dispClass` here, `class` being a Lean keyword). -/
structure DispatchInfo where
  totalWeight : Weight
  dispClass : DispatchClass
deriving DecidableEq, Repr

/-- `InvalidTransaction` errors produced by the controller. -/
inductive InvalidTransaction where
  | exhaustsResources
deriving DecidableEq, Repr

deriving instance DecidableEq for Except

/-- `BlockWeightMode` (`src/block_weight/mod.rs`, lines 74-93). -/
inductive BlockWeightMode where
  | fullCore
  | potentialFullCore (firstTransactionIndex : Option Nat) (targetWeight : Weight)
  | fractionOfCore (firstTransactionIndex : Option Nat)
deriving DecidableEq, Repr

/-- Static configuration: the `TargetBlockRate` parameter, the
`Config::BlockWeights` limits, the `Config::WeightInfo` refund constants and
the const generics of `DynamicMaxBlockWeight`. -/
structure Cfg where
  targetBlockRate : Nat
  maxTotalNormal : Option Weight
  maxTotalOperational : Option Weight
  maxTotalMandatory : Option Weight
  baseBlock : Weight
  weMaxWeight : Weight
  weFullCore : Weight
  weStaysFraction : Weight
  maxTransactionToConsider : Nat
  onlyOperational : Bool
deriving DecidableEq, Repr

/-- `Config::BlockWeights::get().get(class).max_total`. -/
def Cfg.maxTotal (cfg : Cfg) : DispatchClass → Option Weight
  | .normal => cfg.maxTotalNormal
  | .operational => cfg.maxTotalOperational
  | .mandatory => cfg.maxTotalMandatory

/-- Host-runtime state read and written by the controller hooks: the
`BlockWeightMode` storage cell, the `frame_system` digest, the
inherents-applied flag, the current extrinsic index and the per-class
consumed block weight. -/
structure SysState where
  mode : Option BlockWeightMode
  digest : List DigestItem
  inherentsApplied : Bool
  extrinsicIndex : Option Nat
  normalWeight : Weight
  operationalWeight : Weight
  mandatoryWeight : Weight
deriving DecidableEq, Repr

/-- Modelled from the spec: `remaining_block_weight().consumed()` is the
"current running total" of consumed block weight (spec section 6), i.e. the
sum over all dispatch classes of `frame_system::BlockWeight`. -/
def SysState.consumed (s : SysState) : Weight :=
  (s.normalWeight.satAdd s.operationalWeight).satAdd s.mandatoryWeight

/-- `frame_system::BlockWeight::get().get(class)`: consumed weight of one
dispatch class. -/
def SysState.classWeight (s : SysState) : DispatchClass → Weight
  | .normal => s.normalWeight
  | .operational => s.operationalWeight
  | .mandatory => s.mandatoryWeight

/-- `frame_system::Pallet::deposit_log`: append one digest item. -/
def SysState.depositLog (s : SysState) (item : DigestItem) : SysState :=
  { s with digest := s.digest ++ [item] }

/-- `frame_system::Pallet::register_extra_weight_unchecked(w, Mandatory)`:
accrue `w` into the `Mandatory` class. -/
def SysState.registerMandatory (s : SysState) (w : Weight) : SysState :=
  { s with mandatoryWeight := s.mandatoryWeight.satAdd w }

/-- `MaxParachainBlockWeight::target_block_weight_with_digest`
(`src/block_weight/mod.rs`, lines 119-149). -/
def targetBlockWeightWithDigest (cfg : Cfg) (digest : List DigestItem) : Weight :=
  match findCoreInfo digest with
  | none => FULL_CORE_WEIGHT
  | some coreInfo =>
    let targetBlocks := cfg.targetBlockRate
    let numberOfCores := coreInfo.numberOfCores
    if numberOfCores = 0 ∨ targetBlocks = 0 then
      FULL_CORE_WEIGHT
    else
      let totalRefTime :=
        min (satMul64 numberOfCores MAX_REF_TIME_PER_CORE_NS)
          (WEIGHT_REF_TIME_PER_SECOND * 6)
      let refTimePerBlock := min (totalRefTime / targetBlocks) MAX_REF_TIME_PER_CORE_NS
      let totalPovSize := satMul64 numberOfCores MAX_POV_SIZE
      let proofSizePerBlock := min (totalPovSize / targetBlocks) MAX_POV_SIZE
      ⟨refTimePerBlock, proofSizePerBlock⟩

/-- `MaxParachainBlockWeight::target_block_weight_with_digest` of
`src/max_parachain_block_weight.rs` (lines 106-128): the older variant with
no 6s ref-time ceiling and no per-block PoV cap. Used by
`MaxBlockWeightHooks::pre_inherents` of the same file. -/
def targetBlockWeightOld (cfg : Cfg) (digest : List DigestItem) : Weight :=
  match findCoreInfo digest with
  | none => FULL_CORE_WEIGHT
  | some coreInfo =>
    let targetBlocks := cfg.targetBlockRate
    let numberOfCores := coreInfo.numberOfCores
    if numberOfCores = 0 ∨ targetBlocks = 0 then
      FULL_CORE_WEIGHT
    else
      let totalRefTime := satMul64 numberOfCores MAX_REF_TIME_PER_CORE_NS
      let refTimePerBlock := min (totalRefTime / targetBlocks) MAX_REF_TIME_PER_CORE_NS
      let totalPovSize := satMul64 numberOfCores MAX_POV_SIZE
      let proofSizePerBlock := totalPovSize / targetBlocks
      ⟨refTimePerBlock, proofSizePerBlock⟩

/-- The `maybe_full_core_weight` value of the `Get<Weight>` implementation
(`src/block_weight/mod.rs`, lines 159-163). -/
def maybeFullCoreWeight (cfg : Cfg) (s : SysState) : Weight :=
  if isFirstBlockInCoreWithDigest s.digest then FULL_CORE_WEIGHT
  else targetBlockWeightWithDigest cfg s.digest

/-- `impl Get<Weight> for MaxParachainBlockWeight`
(`src/block_weight/mod.rs`, lines 152-182). -/
def maxWeightGet (cfg : Cfg) (s : SysState) : Weight :=
  if s.inherentsApplied = false then maybeFullCoreWeight cfg s
  else
    match s.mode with
    | some .fullCore | some (.potentialFullCore _ _) => FULL_CORE_WEIGHT
    | some (.fractionOfCore _) => targetBlockWeightWithDigest cfg s.digest
    | none => maybeFullCoreWeight cfg s

/-- `block_weight_over_target_block_weight` (`src/block_weight/mod.rs`,
lines 196-202): is the consumed block weight already above the target? -/
def blockWeightOverTargetBlockWeight (cfg : Cfg) (s : SysState) : Prop :=
  s.consumed.anyGt (targetBlockWeightWithDigest cfg s.digest)

instance (cfg : Cfg) (s : SysState) :
    Decidable (blockWeightOverTargetBlockWeight cfg s) :=
  inferInstanceAs (Decidable (Weight.anyGt _ _))

/-- The `target_weight` computed by `pre_validate_extrinsic`
(`src/block_weight/transaction_extension.rs`, lines 163-166):
`block_weights.get(info.class).max_total` or, when absent, the target block
weight minus `base_block` (saturating). -/
def preValidateTargetWeight (cfg : Cfg) (s : SysState) (info : DispatchInfo) : Weight :=
  match cfg.maxTotal info.dispClass with
  | some w => w
  | none => (targetBlockWeightWithDigest cfg s.digest).satSub cfg.baseBlock

/-- Shared body of `pre_validate_extrinsic` for the two non-`FullCore` arms
of the `match` (`src/block_weight/transaction_extension.rs`, lines 150-236).
`s` is the state after `get_or_insert_with` has filled the mode cell; `fti`
is the bound `first_transaction_index`. The two final source branches
(`is_potential` true and false, lines 220-235) store the identical value and
are embedded as the single last branch. -/
def preValidateNonFull (cfg : Cfg) (s : SysState) (info : DispatchInfo) (len : Nat)
    (extrinsicIndex : Nat) (transactionIndex : Option Nat) (fti : Option Nat) :
    Except InvalidTransaction Unit × SysState :=
  if extrinsicIndex = 0 ∧ blockWeightOverTargetBlockWeight cfg s then
    -- lines 169-190: inherent overrun; `digest` was read before the deposit,
    -- so the first-in-core check uses the pre-deposit digest.
    let s1 := (SysState.depositLog { s with mode := some .fullCore } .useFullCore)
    let s2 :=
      if ¬ isFirstBlockInCoreWithDigest s.digest then
        s1.registerMandatory FULL_CORE_WEIGHT
      else s1
    (.ok (), s2)
  else if (info.totalWeight.satAdd ⟨0, len⟩).anyGt (preValidateTargetWeight cfg s info) then
    let classAllowed :=
      if cfg.onlyOperational then info.dispClass = .operational else True
    if (transactionIndex.getD 0) - (fti.getD 0) < cfg.maxTransactionToConsider ∧
        isFirstBlockInCoreWithDigest s.digest ∧ classAllowed then
      (.ok (),
        { s with
          mode := some (.potentialFullCore (fti.or transactionIndex)
            (preValidateTargetWeight cfg s info)) })
    else
      (.error .exhaustsResources, s)
  else
    (.ok (), { s with mode := some (.fractionOfCore (fti.or transactionIndex)) })

/-- `DynamicMaxBlockWeight::pre_validate_extrinsic`
(`src/block_weight/transaction_extension.rs`, lines 129-241). The storage
`mutate` writes the cell back even on the `Err` path, so the
`get_or_insert_with` initialization persists in every branch. -/
def preValidateExtrinsic (cfg : Cfg) (s : SysState) (info : DispatchInfo) (len : Nat) :
    Except InvalidTransaction Unit × SysState :=
  let extrinsicIndex := s.extrinsicIndex.getD 0
  let transactionIndex := if s.inherentsApplied then some extrinsicIndex else none
  let current := s.mode.getD (.fractionOfCore transactionIndex)
  let s1 : SysState := { s with mode := some current }
  match current with
  | .fullCore => (.ok (), s1)
  | .potentialFullCore fti _ =>
    preValidateNonFull cfg s1 info len extrinsicIndex transactionIndex fti
  | .fractionOfCore fti =>
    preValidateNonFull cfg s1 info len extrinsicIndex transactionIndex fti

/-- `DynamicMaxBlockWeight::post_dispatch_extrinsic`
(`src/block_weight/transaction_extension.rs`, lines 247-337). Returns the
weight refund together with the updated state. -/
def postDispatchExtrinsic (cfg : Cfg) (s : SysState) (info : DispatchInfo) :
    Weight × SysState :=
  match s.mode with
  | none => (Weight.zero, s)
  | some .fullCore => (cfg.weMaxWeight.satSub cfg.weFullCore, s)
  | some (.fractionOfCore _) =>
    let isAboveLimit :=
      s.consumed.anyGt (targetBlockWeightWithDigest cfg s.digest)
    let s' :=
      if isAboveLimit then
        let s1 :=
          if ¬ isFirstBlockInCoreWithDigest s.digest then
            s.registerMandatory FULL_CORE_WEIGHT
          else s
        SysState.depositLog { s1 with mode := some .fullCore } .useFullCore
      else s
    (cfg.weMaxWeight.satSub cfg.weStaysFraction, s')
  | some (.potentialFullCore fti targetWeight) =>
    if (s.classWeight info.dispClass).anyGt targetWeight then
      (Weight.zero, SysState.depositLog { s with mode := some .fullCore } .useFullCore)
    else
      (Weight.zero, { s with mode := some (.fractionOfCore fti) })

/-- `MaxBlockWeightHooks::pre_inherents`
(`src/max_parachain_block_weight.rs`, lines 159-180). Uses the older
`target_block_weight` of the same file. Note: it deposits `UseFullCore` and
stores `FullCore` but registers no extra weight. -/
def preInherentsHook (cfg : Cfg) (s : SysState) : SysState :=
  if s.consumed.anyGt (targetBlockWeightOld cfg s.digest) then
    SysState.depositLog { s with mode := some .fullCore } .useFullCore
  else s

/-- One controller hook invocation: the pre-inherents hook, or one of the
transaction-extension hooks with its inputs. -/
inductive Hook where
  | preInherents
  | preValidate (info : DispatchInfo) (len : Nat)
  | postDispatch (info : DispatchInfo)
deriving DecidableEq, Repr

/-- The state transformation of one hook invocation (results and refunds
discarded). -/
def stepHook (cfg : Cfg) (s : SysState) : Hook → SysState
  | .preInherents => preInherentsHook cfg s
  | .preValidate info len => (preValidateExtrinsic cfg s info len).2
  | .postDispatch info => (postDispatchExtrinsic cfg s info).2

/-- Run a sequence of hook invocations. -/
def runHooks (cfg : Cfg) (s : SysState) (hooks : List Hook) : SysState :=
  hooks.foldl (stepHook cfg) s

/-- Number of `UseFullCore` items in a digest. -/
def countUseFullCore (digest : List DigestItem) : Nat :=
  digest.count DigestItem.useFullCore

/-! ## Helper lemmas -/

/-- Saturating multiplication by `MAX_POV_SIZE` does not saturate for a
`u16` core count. -/
lemma satMul64_pov (n : Nat) (hb : n < 2 ^ 16) :
    satMul64 n MAX_POV_SIZE = n * MAX_POV_SIZE := by
  unfold satMul64 U64_MAX MAX_POV_SIZE
  omega

/-- The 6s ceiling absorbs any saturation of the ref-time product. -/
lemma satMul64_refTime_min (n : Nat) :
    min (satMul64 n MAX_REF_TIME_PER_CORE_NS) (WEIGHT_REF_TIME_PER_SECOND * 6) =
    min (n * (2 * WEIGHT_REF_TIME_PER_SECOND)) (6 * WEIGHT_REF_TIME_PER_SECOND) := by
  unfold satMul64 U64_MAX MAX_REF_TIME_PER_CORE_NS WEIGHT_REF_TIME_PER_SECOND
  omega

/-- Does an optional mode hold `PotentialFullCore`? -/
def isPotentialMode : Option BlockWeightMode → Bool
  | some (.potentialFullCore _ _) => true
  | _ => false

/-! ## Claim theorems -/

/-- C2: when the digest's `CoreInfo` has `number_of_cores = n ≥ 1` (a `u16`)
and the target block rate is `t ≥ 1`, `target_block_weight` returns
`ref_time = min(min(n * 2s, 6s) / t, 2s)` and
`proof_size = min(n * MAX_POV_SIZE / t, MAX_POV_SIZE)`; with no `CoreInfo`,
or `n = 0`, or `t = 0`, it returns `FULL_CORE_WEIGHT`. -/
theorem c2_target_block_weight_formula (cfg : Cfg) (d : List DigestItem) :
    (findCoreInfo d = none → targetBlockWeightWithDigest cfg d = FULL_CORE_WEIGHT) ∧
    ∀ ci, findCoreInfo d = some ci →
      (ci.numberOfCores = 0 ∨ cfg.targetBlockRate = 0 →
          targetBlockWeightWithDigest cfg d = FULL_CORE_WEIGHT) ∧
      (1 ≤ ci.numberOfCores → 1 ≤ cfg.targetBlockRate → ci.numberOfCores < 2 ^ 16 →
          targetBlockWeightWithDigest cfg d =
            ⟨min (min (ci.numberOfCores * (2 * WEIGHT_REF_TIME_PER_SECOND))
                  (6 * WEIGHT_REF_TIME_PER_SECOND) / cfg.targetBlockRate)
                (2 * WEIGHT_REF_TIME_PER_SECOND),
              min (ci.numberOfCores * MAX_POV_SIZE / cfg.targetBlockRate) MAX_POV_SIZE⟩) := by
  refine ⟨fun h => ?_, fun ci h => ⟨fun h0 => ?_, fun hn ht hb => ?_⟩⟩
  · simp only [targetBlockWeightWithDigest, h]
  · simp only [targetBlockWeightWithDigest, h, if_pos h0]
  · have hne : ¬ (ci.numberOfCores = 0 ∨ cfg.targetBlockRate = 0) := by omega
    simp only [targetBlockWeightWithDigest, h, if_neg hne]
    rw [satMul64_refTime_min, satMul64_pov ci.numberOfCores hb]
    unfold MAX_REF_TIME_PER_CORE_NS
    exact rfl

/-- Witness for C2 at one core, four target blocks. -/
theorem c2_target_block_weight_formula_witness :
    targetBlockWeightWithDigest
      ⟨4, none, none, none, Weight.zero, Weight.zero, Weight.zero, Weight.zero, 10, false⟩
      [DigestItem.coreInfo ⟨0, 0, 1⟩] =
      ⟨min (min (1 * (2 * WEIGHT_REF_TIME_PER_SECOND))
          (6 * WEIGHT_REF_TIME_PER_SECOND) / 4) (2 * WEIGHT_REF_TIME_PER_SECOND),
        min (1 * MAX_POV_SIZE / 4) MAX_POV_SIZE⟩ :=
  ((c2_target_block_weight_formula
      ⟨4, none, none, none, Weight.zero, Weight.zero, Weight.zero, Weight.zero, 10, false⟩
      [DigestItem.coreInfo ⟨0, 0, 1⟩]).2 ⟨0, 0, 1⟩ rfl).2
    (by decide) (by decide) (by decide)

/-- C3 counterexample: with `number_of_cores = 3` and a target block rate of
1, `target_block_weight` returns `(2s, MAX_POV_SIZE)`, not the claimed
`(6s, 3 * MAX_POV_SIZE)`: both the per-block ref-time cap of one core and
the per-block PoV cap apply. -/
theorem c3_three_cores_counterexample :
    targetBlockWeightWithDigest
        ⟨1, none, none, none, Weight.zero, Weight.zero, Weight.zero, Weight.zero, 10, false⟩
        [DigestItem.coreInfo ⟨0, 0, 3⟩] =
      ⟨2 * WEIGHT_REF_TIME_PER_SECOND, MAX_POV_SIZE⟩ ∧
    targetBlockWeightWithDigest
        ⟨1, none, none, none, Weight.zero, Weight.zero, Weight.zero, Weight.zero, 10, false⟩
        [DigestItem.coreInfo ⟨0, 0, 3⟩] ≠
      ⟨6 * WEIGHT_REF_TIME_PER_SECOND, 3 * MAX_POV_SIZE⟩ := by
  constructor <;> decide

/-- C3 amended: when the digest's `CoreInfo` has `number_of_cores = 3` and
the target block rate is 1, `target_block_weight` returns 2s of ref time
(the per-block one-core cap) and `MAX_POV_SIZE` of proof size (the per-block
PoV cap). -/
theorem c3_three_cores_one_block (cfg : Cfg) (d : List DigestItem) (ci : CoreInfo)
    (h : findCoreInfo d = some ci) (h3 : ci.numberOfCores = 3)
    (h1 : cfg.targetBlockRate = 1) :
    targetBlockWeightWithDigest cfg d = ⟨2 * WEIGHT_REF_TIME_PER_SECOND, MAX_POV_SIZE⟩ := by
  have := ((c2_target_block_weight_formula cfg d).2 ci h).2
    (by omega) (by omega) (by omega)
  rw [this, h3, h1]
  decide

/-- Witness for C3 amended. -/
theorem c3_three_cores_one_block_witness :
    targetBlockWeightWithDigest
        ⟨1, none, none, none, Weight.zero, Weight.zero, Weight.zero, Weight.zero, 10, false⟩
        [DigestItem.coreInfo ⟨0, 0, 3⟩] =
      ⟨2 * WEIGHT_REF_TIME_PER_SECOND, MAX_POV_SIZE⟩ :=
  c3_three_cores_one_block
    ⟨1, none, none, none, Weight.zero, Weight.zero, Weight.zero, Weight.zero, 10, false⟩
    [DigestItem.coreInfo ⟨0, 0, 3⟩] ⟨0, 0, 3⟩ rfl rfl rfl

/-- C9: for every digest and target block rate, the fractional per-block
budget never exceeds one core: its ref time is at most
`2 * WEIGHT_REF_TIME_PER_SECOND` and its proof size at most `MAX_POV_SIZE`,
componentwise at most `FULL_CORE_WEIGHT`. -/
theorem c9_target_at_most_full_core (cfg : Cfg) (d : List DigestItem) :
    (targetBlockWeightWithDigest cfg d).refTime ≤ FULL_CORE_WEIGHT.refTime ∧
    (targetBlockWeightWithDigest cfg d).proofSize ≤ FULL_CORE_WEIGHT.proofSize := by
  unfold targetBlockWeightWithDigest
  cases h : findCoreInfo d with
  | none => exact ⟨Nat.le_refl _, Nat.le_refl _⟩
  | some ci =>
    simp only
    split
    · exact ⟨Nat.le_refl _, Nat.le_refl _⟩
    · exact ⟨Nat.min_le_right _ _, Nat.min_le_right _ _⟩

/-- C8 counterexample: with inherents not yet applied, a stored mode of
`FullCore` and a non-first-in-core digest carrying one core at a target rate
of 2, the `Get<Weight>` query returns the fractional target, not
`FULL_CORE_WEIGHT`: the phase check takes precedence over the mode match. -/
theorem c8_get_weight_counterexample :
    (⟨some .fullCore, [DigestItem.coreInfo ⟨0, 0, 1⟩], false, none,
        Weight.zero, Weight.zero, Weight.zero⟩ : SysState).mode =
      some BlockWeightMode.fullCore ∧
    maxWeightGet
        ⟨2, none, none, none, Weight.zero, Weight.zero, Weight.zero, Weight.zero, 10, false⟩
        ⟨some .fullCore, [DigestItem.coreInfo ⟨0, 0, 1⟩], false, none,
          Weight.zero, Weight.zero, Weight.zero⟩ ≠
      FULL_CORE_WEIGHT := by
  constructor <;> decide

/-- C8 amended: the `Get<Weight>` query returns `maybe_full` whenever
inherents are not yet applied or the mode cell is `None`; and once inherents
are applied it returns `FULL_CORE_WEIGHT` when the stored mode is `FullCore`
or `PotentialFullCore`, and the fractional target when it is
`FractionOfCore`. -/
theorem c8_get_weight_cases (cfg : Cfg) (s : SysState) :
    (s.inherentsApplied = false ∨ s.mode = none →
        maxWeightGet cfg s = maybeFullCoreWeight cfg s) ∧
    (s.inherentsApplied = true →
      (s.mode = some .fullCore ∨ (∃ f t, s.mode = some (.potentialFullCore f t)) →
          maxWeightGet cfg s = FULL_CORE_WEIGHT) ∧
      (∀ f, s.mode = some (.fractionOfCore f) →
          maxWeightGet cfg s = targetBlockWeightWithDigest cfg s.digest)) := by
  refine ⟨fun h => ?_, fun hI => ⟨fun h => ?_, fun f h => ?_⟩⟩
  · rcases h with h | h
    · simp [maxWeightGet, h]
    · cases hI : s.inherentsApplied <;> simp [maxWeightGet, hI, h]
  · rcases h with h | ⟨f, t, h⟩ <;> simp [maxWeightGet, hI, h]
  · simp [maxWeightGet, hI, h]

/-- Witness for C8 amended. -/
theorem c8_get_weight_cases_witness :
    maxWeightGet
        ⟨2, none, none, none, Weight.zero, Weight.zero, Weight.zero, Weight.zero, 10, false⟩
        ⟨some .fullCore, [], true, none, Weight.zero, Weight.zero, Weight.zero⟩ =
      FULL_CORE_WEIGHT :=
  ((c8_get_weight_cases
      ⟨2, none, none, none, Weight.zero, Weight.zero, Weight.zero, Weight.zero, 10, false⟩
      ⟨some .fullCore, [], true, none, Weight.zero, Weight.zero, Weight.zero⟩).2
    rfl).1 (Or.inl rfl)

/-- Once the mode cell holds `FullCore`, `pre_validate_extrinsic` leaves it
unchanged. -/
lemma preValidate_keeps_fullCore (cfg : Cfg) (s : SysState) (info : DispatchInfo)
    (len : Nat) (h : s.mode = some .fullCore) :
    (preValidateExtrinsic cfg s info len).2.mode = some .fullCore := by
  simp [preValidateExtrinsic, h]

/-- Once the mode cell holds `FullCore`, `post_dispatch_extrinsic` leaves it
unchanged. -/
lemma postDispatch_keeps_fullCore (cfg : Cfg) (s : SysState) (info : DispatchInfo)
    (h : s.mode = some .fullCore) :
    (postDispatchExtrinsic cfg s info).2.mode = some .fullCore := by
  simp [postDispatchExtrinsic, h]

/-- Once the mode cell holds `FullCore`, the pre-inherents hook leaves it
unchanged. -/
lemma preInherents_keeps_fullCore (cfg : Cfg) (s : SysState)
    (h : s.mode = some .fullCore) :
    (preInherentsHook cfg s).mode = some .fullCore := by
  unfold preInherentsHook
  split
  · rfl
  · exact h

/-- Any single hook invocation preserves a stored `FullCore` mode. -/
lemma stepHook_keeps_fullCore (cfg : Cfg) (s : SysState) (hook : Hook)
    (h : s.mode = some .fullCore) :
    (stepHook cfg s hook).mode = some .fullCore := by
  cases hook with
  | preInherents => exact preInherents_keeps_fullCore cfg s h
  | preValidate info len => exact preValidate_keeps_fullCore cfg s info len h
  | postDispatch info => exact postDispatch_keeps_fullCore cfg s info h

/-- C1: once the mode store holds `FullCore`, every later sequence of hook
invocations (pre-inherents hook, `pre_validate_extrinsic`,
`post_dispatch_extrinsic`) leaves the stored mode equal to `FullCore`. -/
theorem c1_fullCore_is_terminal (cfg : Cfg) (s : SysState) (hooks : List Hook)
    (h : s.mode = some .fullCore) :
    (runHooks cfg s hooks).mode = some .fullCore := by
  induction hooks generalizing s with
  | nil => exact h
  | cons hd tl ih =>
    simpa [runHooks] using ih (stepHook cfg s hd) (stepHook_keeps_fullCore cfg s hd h)

/-- Witness for C1: a concrete `FullCore` state run through one invocation of
each hook kind. -/
theorem c1_fullCore_is_terminal_witness :
    (runHooks
        ⟨1, none, none, none, Weight.zero, Weight.zero, Weight.zero, Weight.zero, 10, false⟩
        ⟨some .fullCore, [], true, some 0, Weight.zero, Weight.zero, Weight.zero⟩
        [.preInherents, .preValidate ⟨⟨1, 1⟩, .normal⟩ 3,
          .postDispatch ⟨⟨1, 1⟩, .normal⟩]).mode = some .fullCore :=
  c1_fullCore_is_terminal
    ⟨1, none, none, none, Weight.zero, Weight.zero, Weight.zero, Weight.zero, 10, false⟩
    ⟨some .fullCore, [], true, some 0, Weight.zero, Weight.zero, Weight.zero⟩
    [.preInherents, .preValidate ⟨⟨1, 1⟩, .normal⟩ 3, .postDispatch ⟨⟨1, 1⟩, .normal⟩]
    rfl

/-- C7: if `post_dispatch_extrinsic` starts with
`PotentialFullCore { first_transaction_index, target_weight }`, the resulting
mode is never `PotentialFullCore`: it is `FullCore` with a `UseFullCore`
deposit exactly when the consumed weight of the extrinsic's dispatch class
exceeds `target_weight`, and otherwise `FractionOfCore` with the same
`first_transaction_index`; in both cases the returned refund is zero. -/
theorem c7_potential_resolves (cfg : Cfg) (s : SysState) (info : DispatchInfo)
    (fti : Option Nat) (tw : Weight)
    (h : s.mode = some (.potentialFullCore fti tw)) :
    (∀ f t, (postDispatchExtrinsic cfg s info).2.mode ≠
        some (.potentialFullCore f t)) ∧
    ((s.classWeight info.dispClass).anyGt tw →
        (postDispatchExtrinsic cfg s info).2.mode = some .fullCore ∧
        (postDispatchExtrinsic cfg s info).2.digest = s.digest ++ [.useFullCore]) ∧
    (¬ (s.classWeight info.dispClass).anyGt tw →
        (postDispatchExtrinsic cfg s info).2.mode = some (.fractionOfCore fti) ∧
        (postDispatchExtrinsic cfg s info).2.digest = s.digest) ∧
    (postDispatchExtrinsic cfg s info).1 = Weight.zero := by
  simp only [postDispatchExtrinsic, h]
  split
  · exact ⟨by simp [SysState.depositLog], fun _ => ⟨rfl, by simp [SysState.depositLog]⟩,
      fun hn => absurd (by assumption) hn, rfl⟩
  · exact ⟨by simp, fun hgt => absurd hgt (by assumption), fun _ => ⟨rfl, rfl⟩, rfl⟩

/-- Witness for C7: a concrete `PotentialFullCore` state whose class weight
exceeds the target. -/
theorem c7_potential_resolves_witness :
    (∀ f t, (postDispatchExtrinsic
        ⟨1, none, none, none, Weight.zero, ⟨50, 50⟩, ⟨20, 20⟩, ⟨10, 10⟩, 10, false⟩
        ⟨some (.potentialFullCore (some 1) ⟨5, 5⟩), [], true, some 1,
          ⟨10, 0⟩, Weight.zero, Weight.zero⟩
        ⟨⟨10, 0⟩, .normal⟩).2.mode ≠ some (.potentialFullCore f t)) ∧
    (postDispatchExtrinsic
        ⟨1, none, none, none, Weight.zero, ⟨50, 50⟩, ⟨20, 20⟩, ⟨10, 10⟩, 10, false⟩
        ⟨some (.potentialFullCore (some 1) ⟨5, 5⟩), [], true, some 1,
          ⟨10, 0⟩, Weight.zero, Weight.zero⟩
        ⟨⟨10, 0⟩, .normal⟩).1 = Weight.zero := by
  have h := c7_potential_resolves
    ⟨1, none, none, none, Weight.zero, ⟨50, 50⟩, ⟨20, 20⟩, ⟨10, 10⟩, 10, false⟩
    ⟨some (.potentialFullCore (some 1) ⟨5, 5⟩), [], true, some 1,
      ⟨10, 0⟩, Weight.zero, Weight.zero⟩
    ⟨⟨10, 0⟩, .normal⟩ (some 1) ⟨5, 5⟩ rfl
  exact ⟨h.1, h.2.2.2⟩

/-- C6 counterexample: a rejected extrinsic does not leave the mode store
unchanged when the store starts empty: the `get_or_insert_with`
initialization inside `mutate` persists even on the `Err` path, setting
`FractionOfCore { first_transaction_index: Some(5) }`. -/
theorem c6_reject_counterexample :
    (preValidateExtrinsic
        ⟨1, some ⟨10, 10⟩, some ⟨10, 10⟩, some ⟨10, 10⟩, Weight.zero,
          ⟨50, 50⟩, ⟨20, 20⟩, ⟨10, 10⟩, 10, false⟩
        ⟨none, [], true, some 5, Weight.zero, Weight.zero, Weight.zero⟩
        ⟨⟨100, 0⟩, .normal⟩ 0).1 = .error .exhaustsResources ∧
    (preValidateExtrinsic
        ⟨1, some ⟨10, 10⟩, some ⟨10, 10⟩, some ⟨10, 10⟩, Weight.zero,
          ⟨50, 50⟩, ⟨20, 20⟩, ⟨10, 10⟩, 10, false⟩
        ⟨none, [], true, some 5, Weight.zero, Weight.zero, Weight.zero⟩
        ⟨⟨100, 0⟩, .normal⟩ 0).2.mode ≠
      (⟨none, [], true, some 5, Weight.zero, Weight.zero, Weight.zero⟩ : SysState).mode := by
  constructor <;> decide

/-- C6 amended: for every starting state whose mode store is already
initialized (`Some`), a `pre_validate_extrinsic` call that returns
`ExhaustsResources` leaves the entire state — mode store included, hence also
`first_transaction_index` — exactly as it was; only an uninitialized (`None`)
store is filled with the default `FractionOfCore` by the rejected call. -/
theorem c6_reject_preserves_state (cfg : Cfg) (s : SysState) (info : DispatchInfo)
    (len : Nat) (m : BlockWeightMode) (hm : s.mode = some m)
    (he : (preValidateExtrinsic cfg s info len).1 = .error .exhaustsResources) :
    (preValidateExtrinsic cfg s info len).2 = s := by
  obtain ⟨mo, dg, ia, ei, nw, ow, mw⟩ := s
  change mo = some m at hm
  subst hm
  cases m with
  | fullCore => simp [preValidateExtrinsic] at he
  | potentialFullCore fti tw =>
    simp only [preValidateExtrinsic, Option.getD, preValidateNonFull] at he ⊢
    split_ifs at he ⊢ <;> simp_all
  | fractionOfCore fti =>
    simp only [preValidateExtrinsic, Option.getD, preValidateNonFull] at he ⊢
    split_ifs at he ⊢ <;> simp_all

/-- Witness for C6 amended: a rejected over-budget extrinsic with an already
initialized mode store leaves the state untouched. -/
theorem c6_reject_preserves_state_witness :
    (preValidateExtrinsic
        ⟨1, some ⟨10, 10⟩, some ⟨10, 10⟩, some ⟨10, 10⟩, Weight.zero,
          ⟨50, 50⟩, ⟨20, 20⟩, ⟨10, 10⟩, 10, false⟩
        ⟨some (.fractionOfCore (some 2)), [], true, some 5,
          Weight.zero, Weight.zero, Weight.zero⟩
        ⟨⟨100, 0⟩, .normal⟩ 0).2 =
      ⟨some (.fractionOfCore (some 2)), [], true, some 5,
        Weight.zero, Weight.zero, Weight.zero⟩ :=
  c6_reject_preserves_state
    ⟨1, some ⟨10, 10⟩, some ⟨10, 10⟩, some ⟨10, 10⟩, Weight.zero,
      ⟨50, 50⟩, ⟨20, 20⟩, ⟨10, 10⟩, 10, false⟩
    ⟨some (.fractionOfCore (some 2)), [], true, some 5,
      Weight.zero, Weight.zero, Weight.zero⟩
    ⟨⟨100, 0⟩, .normal⟩ 0 (.fractionOfCore (some 2)) rfl (by decide)

/-- C5 counterexample: the pre-inherents hook transitions the mode store into
`FullCore` on a block that is not first in its core (no `BundleInfo` in the
digest) without charging any weight: `FULL_CORE_WEIGHT` is nonzero, yet the
`Mandatory` class weight is unchanged. -/
theorem c5_pre_inherents_counterexample :
    (preInherentsHook
        ⟨1, none, none, none, Weight.zero, Weight.zero, Weight.zero, Weight.zero, 10, false⟩
        ⟨none, [], false, none, ⟨2 * WEIGHT_REF_TIME_PER_SECOND + 1, 0⟩,
          Weight.zero, Weight.zero⟩).mode = some .fullCore ∧
    ¬ isFirstBlockInCoreWithDigest
        (⟨none, [], false, none, ⟨2 * WEIGHT_REF_TIME_PER_SECOND + 1, 0⟩,
          Weight.zero, Weight.zero⟩ : SysState).digest ∧
    (preInherentsHook
        ⟨1, none, none, none, Weight.zero, Weight.zero, Weight.zero, Weight.zero, 10, false⟩
        ⟨none, [], false, none, ⟨2 * WEIGHT_REF_TIME_PER_SECOND + 1, 0⟩,
          Weight.zero, Weight.zero⟩).mandatoryWeight = Weight.zero ∧
    Weight.zero.satAdd FULL_CORE_WEIGHT ≠ Weight.zero := by
  refine ⟨by decide, by decide, by decide, by decide⟩

/-- C5 amended: when `pre_validate_extrinsic`, or `post_dispatch_extrinsic`
entered with mode `FractionOfCore`, transitions the stored mode into
`FullCore` while the block is not first in its core, that same invocation
charges `FULL_CORE_WEIGHT` into the `Mandatory` class via
`register_extra_weight_unchecked`; the pre-inherents hook and
`post_dispatch_extrinsic`'s resolution of `PotentialFullCore` transition into
`FullCore` without charging. -/
theorem c5_not_first_transition_charges (cfg : Cfg) (s : SysState)
    (info : DispatchInfo) (len : Nat) :
    (s.mode ≠ some .fullCore →
      (preValidateExtrinsic cfg s info len).2.mode = some .fullCore →
      ¬ isFirstBlockInCoreWithDigest s.digest →
      (preValidateExtrinsic cfg s info len).2.mandatoryWeight =
        s.mandatoryWeight.satAdd FULL_CORE_WEIGHT) ∧
    (∀ fti, s.mode = some (.fractionOfCore fti) →
      (postDispatchExtrinsic cfg s info).2.mode = some .fullCore →
      ¬ isFirstBlockInCoreWithDigest s.digest →
      (postDispatchExtrinsic cfg s info).2.mandatoryWeight =
        s.mandatoryWeight.satAdd FULL_CORE_WEIGHT) := by
  obtain ⟨mo, dg, ia, ei, nw, ow, mw⟩ := s
  constructor
  · intro hne hfull hfirst
    match mo with
    | none =>
      simp only [preValidateExtrinsic, preValidateNonFull, Option.getD] at hfull ⊢
      split_ifs at hfull ⊢ <;>
        simp_all [SysState.depositLog, SysState.registerMandatory]
    | some .fullCore => exact absurd rfl hne
    | some (.potentialFullCore fti tw) =>
      simp only [preValidateExtrinsic, preValidateNonFull, Option.getD] at hfull ⊢
      split_ifs at hfull ⊢ <;>
        simp_all [SysState.depositLog, SysState.registerMandatory]
    | some (.fractionOfCore fti) =>
      simp only [preValidateExtrinsic, preValidateNonFull, Option.getD] at hfull ⊢
      split_ifs at hfull ⊢ <;>
        simp_all [SysState.depositLog, SysState.registerMandatory]
  · intro fti hm hfull hfirst
    change mo = some (.fractionOfCore fti) at hm
    subst hm
    simp only [postDispatchExtrinsic] at hfull ⊢
    split_ifs at hfull ⊢ <;>
      simp_all [SysState.depositLog, SysState.registerMandatory]

/-- Witness for C5 amended: an inherent-overrun `pre_validate_extrinsic` call
on a non-first block charges `FULL_CORE_WEIGHT` as `Mandatory`. -/
theorem c5_not_first_transition_charges_witness :
    (preValidateExtrinsic
        ⟨1, none, none, none, Weight.zero, Weight.zero, Weight.zero, Weight.zero, 10, false⟩
        ⟨none, [], false, none, ⟨2 * WEIGHT_REF_TIME_PER_SECOND + 1, 0⟩,
          Weight.zero, Weight.zero⟩
        ⟨⟨1, 1⟩, .normal⟩ 0).2.mandatoryWeight =
      Weight.zero.satAdd FULL_CORE_WEIGHT :=
  (c5_not_first_transition_charges
      ⟨1, none, none, none, Weight.zero, Weight.zero, Weight.zero, Weight.zero, 10, false⟩
      ⟨none, [], false, none, ⟨2 * WEIGHT_REF_TIME_PER_SECOND + 1, 0⟩,
        Weight.zero, Weight.zero⟩
      ⟨⟨1, 1⟩, .normal⟩ 0).1 (by decide) (by decide) (by decide)

/-- C10 counterexample: in a block with no `BundleInfo` whose mode store
already holds `FullCore`, an extrinsic far over the target weight is
accepted (`Ok`), not rejected with `ExhaustsResources`. -/
theorem c10_full_core_accepts_counterexample :
    findBundleInfo
        (⟨some .fullCore, [], true, some 5, Weight.zero, Weight.zero,
          Weight.zero⟩ : SysState).digest = none ∧
    Weight.anyGt (Weight.satAdd ⟨100, 0⟩ ⟨0, 0⟩)
      (preValidateTargetWeight
        ⟨1, some ⟨10, 10⟩, some ⟨10, 10⟩, some ⟨10, 10⟩, Weight.zero,
          ⟨50, 50⟩, ⟨20, 20⟩, ⟨10, 10⟩, 10, false⟩
        ⟨some .fullCore, [], true, some 5, Weight.zero, Weight.zero, Weight.zero⟩
        ⟨⟨100, 0⟩, .normal⟩) ∧
    (preValidateExtrinsic
        ⟨1, some ⟨10, 10⟩, some ⟨10, 10⟩, some ⟨10, 10⟩, Weight.zero,
          ⟨50, 50⟩, ⟨20, 20⟩, ⟨10, 10⟩, 10, false⟩
        ⟨some .fullCore, [], true, some 5, Weight.zero, Weight.zero, Weight.zero⟩
        ⟨⟨100, 0⟩, .normal⟩ 0).1 = .ok () := by
  refine ⟨by decide, by decide, by decide⟩

/-- C10 amended: a digest without `BundleInfo` is never first-in-core, and in
such a block — provided the stored mode is not already `FullCore` — any
extrinsic whose announced weight plus length exceeds the target weight and
which does not hit the inherent-overrun branch is rejected with
`ExhaustsResources`, and `PotentialFullCore` is never set. -/
theorem c10_no_bundle_rejects (cfg : Cfg) (s : SysState) (info : DispatchInfo)
    (len : Nat) :
    (findBundleInfo s.digest = none → ¬ isFirstBlockInCoreWithDigest s.digest) ∧
    (findBundleInfo s.digest = none →
      s.mode ≠ some .fullCore →
      ¬ (s.extrinsicIndex.getD 0 = 0 ∧
          s.consumed.anyGt (targetBlockWeightWithDigest cfg s.digest)) →
      (info.totalWeight.satAdd ⟨0, len⟩).anyGt (preValidateTargetWeight cfg s info) →
      (preValidateExtrinsic cfg s info len).1 = .error .exhaustsResources ∧
      (isPotentialMode s.mode = false →
        isPotentialMode (preValidateExtrinsic cfg s info len).2.mode = false)) := by
  obtain ⟨mo, dg, ia, ei, nw, ow, mw⟩ := s
  constructor
  · intro hb
    simp [isFirstBlockInCoreWithDigest, hb]
  · intro hb hne hover hgt
    have hfirst : ¬ isFirstBlockInCoreWithDigest dg := by
      simp [isFirstBlockInCoreWithDigest, hb]
    match mo with
    | none =>
      simp only [preValidateExtrinsic, preValidateNonFull, Option.getD,
        blockWeightOverTargetBlockWeight, preValidateTargetWeight,
        SysState.consumed] at hover hgt ⊢
      split_ifs <;> simp_all [isPotentialMode]
    | some .fullCore => exact absurd rfl hne
    | some (.potentialFullCore fti tw) =>
      simp only [preValidateExtrinsic, preValidateNonFull, Option.getD,
        blockWeightOverTargetBlockWeight, preValidateTargetWeight,
        SysState.consumed] at hover hgt ⊢
      split_ifs <;> simp_all [isPotentialMode]
    | some (.fractionOfCore fti) =>
      simp only [preValidateExtrinsic, preValidateNonFull, Option.getD,
        blockWeightOverTargetBlockWeight, preValidateTargetWeight,
        SysState.consumed] at hover hgt ⊢
      split_ifs <;> simp_all [isPotentialMode]

/-- Witness for C10 amended. -/
theorem c10_no_bundle_rejects_witness :
    (preValidateExtrinsic
        ⟨1, some ⟨10, 10⟩, some ⟨10, 10⟩, some ⟨10, 10⟩, Weight.zero,
          ⟨50, 50⟩, ⟨20, 20⟩, ⟨10, 10⟩, 10, false⟩
        ⟨none, [], true, some 5, Weight.zero, Weight.zero, Weight.zero⟩
        ⟨⟨100, 0⟩, .normal⟩ 0).1 = .error .exhaustsResources ∧
    (isPotentialMode
        (⟨none, [], true, some 5, Weight.zero, Weight.zero, Weight.zero⟩
          : SysState).mode = false →
      isPotentialMode
        (preValidateExtrinsic
          ⟨1, some ⟨10, 10⟩, some ⟨10, 10⟩, some ⟨10, 10⟩, Weight.zero,
            ⟨50, 50⟩, ⟨20, 20⟩, ⟨10, 10⟩, 10, false⟩
          ⟨none, [], true, some 5, Weight.zero, Weight.zero, Weight.zero⟩
          ⟨⟨100, 0⟩, .normal⟩ 0).2.mode = false) :=
  (c10_no_bundle_rejects
      ⟨1, some ⟨10, 10⟩, some ⟨10, 10⟩, some ⟨10, 10⟩, Weight.zero,
        ⟨50, 50⟩, ⟨20, 20⟩, ⟨10, 10⟩, 10, false⟩
      ⟨none, [], true, some 5, Weight.zero, Weight.zero, Weight.zero⟩
      ⟨⟨100, 0⟩, .normal⟩ 0).2 rfl (by decide) (by decide) (by decide)

/-- Appending a `UseFullCore` item increments its digest count. -/
lemma countUseFullCore_append_use (d : List DigestItem) :
    countUseFullCore (d ++ [.useFullCore]) = countUseFullCore d + 1 := by
  simp [countUseFullCore]

/-- The one-shot emission invariant relating the stored mode and the number
of `UseFullCore` items the controller has deposited: `FullCore` mode comes
with exactly one deposit, any other mode with none. -/
def ModeEmissionInv (s : SysState) : Prop :=
  (s.mode = some .fullCore ∧ countUseFullCore s.digest = 1) ∨
  (s.mode ≠ some .fullCore ∧ countUseFullCore s.digest = 0)

/-- `pre_validate_extrinsic` preserves the emission invariant. -/
lemma modeEmissionInv_preValidate (cfg : Cfg) (s : SysState) (info : DispatchInfo)
    (len : Nat) (h : ModeEmissionInv s) :
    ModeEmissionInv (preValidateExtrinsic cfg s info len).2 := by
  obtain ⟨mo, dg, ia, ei, nw, ow, mw⟩ := s
  rcases h with ⟨hm, hc⟩ | ⟨hm, hc⟩
  · change mo = some .fullCore at hm
    subst hm
    exact Or.inl ⟨by simp [preValidateExtrinsic],
      by simpa [preValidateExtrinsic, countUseFullCore] using hc⟩
  · match mo with
    | none =>
      simp only [preValidateExtrinsic, preValidateNonFull, Option.getD]
      split_ifs <;>
        simp_all [ModeEmissionInv, SysState.depositLog, SysState.registerMandatory,
          countUseFullCore_append_use]
    | some .fullCore => exact absurd rfl hm
    | some (.potentialFullCore fti tw) =>
      simp only [preValidateExtrinsic, preValidateNonFull, Option.getD]
      split_ifs <;>
        simp_all [ModeEmissionInv, SysState.depositLog, SysState.registerMandatory,
          countUseFullCore_append_use]
    | some (.fractionOfCore fti) =>
      simp only [preValidateExtrinsic, preValidateNonFull, Option.getD]
      split_ifs <;>
        simp_all [ModeEmissionInv, SysState.depositLog, SysState.registerMandatory,
          countUseFullCore_append_use]

/-- `post_dispatch_extrinsic` preserves the emission invariant. -/
lemma modeEmissionInv_postDispatch (cfg : Cfg) (s : SysState) (info : DispatchInfo)
    (h : ModeEmissionInv s) :
    ModeEmissionInv (postDispatchExtrinsic cfg s info).2 := by
  obtain ⟨mo, dg, ia, ei, nw, ow, mw⟩ := s
  rcases h with ⟨hm, hc⟩ | ⟨hm, hc⟩
  · change mo = some .fullCore at hm
    subst hm
    exact Or.inl ⟨by simp [postDispatchExtrinsic],
      by simpa [postDispatchExtrinsic, countUseFullCore] using hc⟩
  · match mo with
    | none =>
      exact Or.inr ⟨hm, hc⟩
    | some .fullCore => exact absurd rfl hm
    | some (.potentialFullCore fti tw) =>
      simp only [postDispatchExtrinsic]
      split_ifs <;>
        simp_all [ModeEmissionInv, SysState.depositLog, SysState.registerMandatory,
          countUseFullCore_append_use]
    | some (.fractionOfCore fti) =>
      simp only [postDispatchExtrinsic]
      split_ifs <;>
        simp_all [ModeEmissionInv, SysState.depositLog, SysState.registerMandatory,
          countUseFullCore_append_use]

/-- The pre-inherents hook establishes the emission invariant at the start of
a block (empty mode cell, no `UseFullCore` deposited yet). -/
lemma modeEmissionInv_preInherents (cfg : Cfg) (s : SysState)
    (hm : s.mode = none) (hc : countUseFullCore s.digest = 0) :
    ModeEmissionInv (preInherentsHook cfg s) := by
  unfold preInherentsHook
  split
  · exact Or.inl ⟨rfl, by simp [SysState.depositLog, countUseFullCore_append_use, hc]⟩
  · exact Or.inr ⟨by simp [hm], hc⟩

/-- Any sequence of transaction-extension hooks preserves the emission
invariant. -/
lemma modeEmissionInv_runHooks (cfg : Cfg) (s : SysState) (hooks : List Hook)
    (h : ModeEmissionInv s) (hext : ∀ hk ∈ hooks, hk ≠ Hook.preInherents) :
    ModeEmissionInv (runHooks cfg s hooks) := by
  induction hooks generalizing s with
  | nil => exact h
  | cons hd tl ih =>
    have hd_ne : hd ≠ Hook.preInherents := hext hd (by simp)
    have htl : ∀ hk ∈ tl, hk ≠ Hook.preInherents := fun hk hmem => hext hk (by simp [hmem])
    have hstep : ModeEmissionInv (stepHook cfg s hd) := by
      cases hd with
      | preInherents => exact absurd rfl hd_ne
      | preValidate info len => exact modeEmissionInv_preValidate cfg s info len h
      | postDispatch info => exact modeEmissionInv_postDispatch cfg s info h
    simpa [runHooks] using ih (stepHook cfg s hd) hstep htl

/-- C4: in a block started with an empty mode cell, a digest with no
`UseFullCore` item, and the pre-inherents hook run first, the stored mode
ends as `FullCore` exactly when one `UseFullCore` digest item has been
deposited by the end of the block, and a block that never reaches `FullCore`
deposits none. -/
theorem c4_one_use_full_core_emission (cfg : Cfg) (s : SysState)
    (hooks : List Hook) (hm : s.mode = none)
    (hc : countUseFullCore s.digest = 0)
    (hext : ∀ hk ∈ hooks, hk ≠ Hook.preInherents) :
    ((runHooks cfg s (Hook.preInherents :: hooks)).mode = some .fullCore ↔
      countUseFullCore (runHooks cfg s (Hook.preInherents :: hooks)).digest = 1) ∧
    ((runHooks cfg s (Hook.preInherents :: hooks)).mode ≠ some .fullCore →
      countUseFullCore (runHooks cfg s (Hook.preInherents :: hooks)).digest = 0) := by
  have hrun : runHooks cfg s (Hook.preInherents :: hooks) =
      runHooks cfg (preInherentsHook cfg s) hooks := by
    simp [runHooks, stepHook]
  have hinv : ModeEmissionInv (runHooks cfg s (Hook.preInherents :: hooks)) := by
    rw [hrun]
    exact modeEmissionInv_runHooks cfg (preInherentsHook cfg s) hooks
      (modeEmissionInv_preInherents cfg s hm hc) hext
  rcases hinv with ⟨h1, h2⟩ | ⟨h1, h2⟩
  · exact ⟨⟨fun _ => h2, fun _ => h1⟩, fun hne => absurd h1 hne⟩
  · exact ⟨⟨fun hf => absurd hf h1, fun hcnt => by omega⟩, fun _ => h2⟩

/-- Witness for C4: a concrete block run consisting of the pre-inherents hook
followed by one `pre_validate` and one `post_dispatch`. -/
theorem c4_one_use_full_core_emission_witness :
    ((runHooks
        ⟨1, none, none, none, Weight.zero, ⟨50, 50⟩, ⟨20, 20⟩, ⟨10, 10⟩, 10, false⟩
        ⟨none, [], false, none, Weight.zero, Weight.zero, Weight.zero⟩
        (Hook.preInherents ::
          [Hook.preValidate ⟨⟨1, 1⟩, .normal⟩ 0,
            Hook.postDispatch ⟨⟨1, 1⟩, .normal⟩])).mode = some .fullCore ↔
      countUseFullCore (runHooks
        ⟨1, none, none, none, Weight.zero, ⟨50, 50⟩, ⟨20, 20⟩, ⟨10, 10⟩, 10, false⟩
        ⟨none, [], false, none, Weight.zero, Weight.zero, Weight.zero⟩
        (Hook.preInherents ::
          [Hook.preValidate ⟨⟨1, 1⟩, .normal⟩ 0,
            Hook.postDispatch ⟨⟨1, 1⟩, .normal⟩])).digest = 1) ∧
    ((runHooks
        ⟨1, none, none, none, Weight.zero, ⟨50, 50⟩, ⟨20, 20⟩, ⟨10, 10⟩, 10, false⟩
        ⟨none, [], false, none, Weight.zero, Weight.zero, Weight.zero⟩
        (Hook.preInherents ::
          [Hook.preValidate ⟨⟨1, 1⟩, .normal⟩ 0,
            Hook.postDispatch ⟨⟨1, 1⟩, .normal⟩])).mode ≠ some .fullCore →
      countUseFullCore (runHooks
        ⟨1, none, none, none, Weight.zero, ⟨50, 50⟩, ⟨20, 20⟩, ⟨10, 10⟩, 10, false⟩
        ⟨none, [], false, none, Weight.zero, Weight.zero, Weight.zero⟩
        (Hook.preInherents ::
          [Hook.preValidate ⟨⟨1, 1⟩, .normal⟩ 0,
            Hook.postDispatch ⟨⟨1, 1⟩, .normal⟩])).digest = 0) :=
  c4_one_use_full_core_emission
    ⟨1, none, none, none, Weight.zero, ⟨50, 50⟩, ⟨20, 20⟩, ⟨10, 10⟩, 10, false⟩
    ⟨none, [], false, none, Weight.zero, Weight.zero, Weight.zero⟩
    [Hook.preValidate ⟨⟨1, 1⟩, .normal⟩ 0, Hook.postDispatch ⟨⟨1, 1⟩, .normal⟩]
    rfl rfl (by decide)
